import Mathlib

/-!
Shallow embedding of the gogacon configuration-manager library
(`manager.go`, `serializer.go`, the error type file, and the behavior of the
OS primitives it calls: `os.Stat`, `os.MkdirAll`, `os.WriteFile`,
`os.ReadFile`, `os.UserHomeDir`).

Modelling choices:
* Go byte slices (`[]byte`) are modelled as `String`; the claims never
  depend on non-UTF-8 contents.
* Go errors are the inductive `GoError`: `plain msg` models an error built
  by `fmt.Errorf`/`errors.New`, `config op path cause` models the struct
  `ConfigError{Operation, Path, Err}`.  `GoError.message` transcribes
  `ConfigError.Error()` (including its `if e.Path != ""` branch order
  exactly as written in the source) and renders a `plain` error as its
  message, as Go's `error` interface does.
* The file system is an explicit state `FS`: an association list of
  regular files plus lists of paths at which each primitive fails
  (permission problems and the like), plus the home directory returned by
  `os.UserHomeDir`.  Directories are not tracked as entries; `os.MkdirAll`
  only succeeds or fails.
* Every call the manager makes to a serializer or to a file-system
  primitive is recorded in a trace of `Event`s, so that claims about
  invocation counts, arguments and ordering can be stated.
-/

/-- Model of a Go error value: either a plain error carrying a message, or
the `ConfigError` struct with its `Operation`, `Path` and wrapped cause. -/
inductive GoError where
  | plain (msg : String)
  | config (operation : String) (path : String) (cause : GoError)
deriving DecidableEq

/-- Go `%q` applied to a string: the string between double quotes.  The
paths appearing in this development contain no characters that `%q` would
escape. -/
def goQuote (s : String) : String := "\"" ++ s ++ "\""

/-- Transcription of `ConfigError.Error()` (and of rendering a plain error).
The source reads:
`if e.Path != "" { return fmt.Sprintf("config error: %s: %s", e.Operation, e.Err) }`
`return fmt.Sprintf("config error: %s %q: %v", e.Operation, e.Path, e.Err)`
so a NON-empty path selects the format WITHOUT the path, and an empty path
selects the format that quotes the (empty) path. -/
def GoError.message : GoError → String
  | .plain m => m
  | .config operation path cause =>
      if path ≠ "" then "config error: " ++ operation ++ ": " ++ cause.message
      else "config error: " ++ operation ++ " " ++ goQuote path ++ ": " ++ cause.message

/-- Transcription of `NewError(operation, path, err)`. -/
def NewError (operation : String) (path : String) (err : GoError) : GoError :=
  .config operation path err

/-- Model of a value implementing the `Serializer` interface: `marshal`
models `Marshal() ([]byte, error)` and `unmarshal data` models
`Unmarshal(data []byte) error` (`none` = nil error).  Each call is
deterministic, as the mock serializers of the repository's tests are. -/
structure Serializer where
  marshal : Except GoError String
  unmarshal : String → Option GoError

/-- Transcription of the `Defaults` struct.  `DefaultConfigValues` is an
`Option` because the Go field holds an interface value that may be nil. -/
structure Defaults where
  AppName : String
  DefaultConfigValues : Option Serializer

/-- Transcription of the `ConfigManager` struct. -/
structure ConfigManager where
  defaults : Defaults
  filePath : String

/-- File-system state: regular files (path to contents), the sets of paths
at which each OS primitive fails with a permission-style error, and the
home directory reported by `os.UserHomeDir`. -/
structure FS where
  files : List (String × String)
  statErrPaths : List String
  mkdirErrDirs : List String
  writeErrPaths : List String
  readErrPaths : List String
  home : String
deriving DecidableEq

/-- Content of the regular file at `p`, if one exists. -/
def FS.lookup (fs : FS) (p : String) : Option String :=
  (fs.files.find? (fun e => e.1 == p)).map (fun e => e.2)

/-- State after writing `data` as the full content of the file at `p`
(creating or overwriting it). -/
def FS.setFile (fs : FS) (p data : String) : FS :=
  { fs with files := (p, data) :: fs.files.filter (fun e => ¬ e.1 == p) }

/-- Model of `os.Stat(p)` restricted to what the code observes: `none` when
stat succeeds, `some err` otherwise.  Stat fails at paths in
`statErrPaths` (e.g. an unsearchable parent directory) even when an entry
exists there, and fails with not-exists when no entry exists. -/
def osStat (fs : FS) (p : String) : Option GoError :=
  if p ∈ fs.statErrPaths then some (.plain ("stat " ++ p ++ ": permission denied"))
  else match fs.lookup p with
    | some _ => none
    | none => some (.plain ("stat " ++ p ++ ": no such file or directory"))

/-- Model of `os.MkdirAll(d, 0755)`: succeeds (directories are not tracked
as entries) unless `d` is a directory at which creation fails. -/
def osMkdirAll (fs : FS) (d : String) : Except GoError Unit :=
  if d ∈ fs.mkdirErrDirs then .error (.plain ("mkdir " ++ d ++ ": permission denied"))
  else .ok ()

/-- Model of `os.WriteFile(p, data, 0644)`.  Opening the empty path fails
with ENOENT, as it does on Linux; other failures are the configured
permission errors.  On success the file's full content becomes `data`. -/
def osWriteFile (fs : FS) (p data : String) : Except GoError FS :=
  if p = "" then .error (.plain "open : no such file or directory")
  else if p ∈ fs.writeErrPaths then .error (.plain ("open " ++ p ++ ": permission denied"))
  else .ok (fs.setFile p data)

/-- Model of `os.ReadFile(p)`. -/
def osReadFile (fs : FS) (p : String) : Except GoError String :=
  if p ∈ fs.readErrPaths then .error (.plain ("open " ++ p ++ ": permission denied"))
  else match fs.lookup p with
    | some c => .ok c
    | none => .error (.plain ("open " ++ p ++ ": no such file or directory"))

/-- Model of `os.UserHomeDir()`; modelled as always succeeding with the
state's home directory. -/
def osUserHomeDir (fs : FS) : String := fs.home

/-- Splits a string at `/` separators (a structurally recursive version of
`String.splitOn "/"`). -/
def splitSlash (s : String) : List String :=
  (s.data.foldr (fun c acc =>
    if c = '/' then [] :: acc
    else match acc with
      | [] => [[c]]
      | g :: gs => (c :: g) :: gs) [[]]).map (fun g => String.mk g)

/-- Model of `filepath.Dir` for clean, slash-separated paths (the only ones
this development uses): everything before the last separator, `"."` when
there is no separator, `"/"` when the result would be empty. -/
def filepathDir (path : String) : String :=
  let comps := splitSlash path
  if comps.length ≤ 1 then "."
  else if comps.dropLast.all (fun c => c = "") then "/"
  else String.intercalate "/" comps.dropLast

/-- Model of `filepath.Join` for clean, non-empty components. -/
def filepathJoin (comps : List String) : String :=
  String.intercalate "/" comps

/-- Calls the manager makes to the OS and to serializers, in order.  A call
is recorded whether it succeeds or fails. -/
inductive Event where
  | statCall (path : String)
  | mkdirAll (dir : String)
  | marshalDefaults
  | marshalArg
  | writeFile (path : String) (data : String)
  | readFile (path : String)
  | unmarshalTarget (data : String)
deriving DecidableEq

/-- Marshals the manager's default-values strategy.  After a successful
`NewConfigManager` the serializer is present; the `none` branch (a nil
interface, on which Go would panic) is unreachable from managers built by
the constructor. -/
def Defaults.marshalDefaults (d : Defaults) : Except GoError String :=
  match d.DefaultConfigValues with
  | some s => s.marshal
  | none => .error (.plain "nil DefaultConfigValues")

/-- Transcription of `NewConfigManager(d)`: validates the required fields
and returns a manager holding the defaults with no resolved path yet. -/
def NewConfigManager (d : Defaults) : Except GoError ConfigManager :=
  if d.AppName = "" then
    .error (NewError "initialization" "" (.plain "AppName must be specified"))
  else match d.DefaultConfigValues with
    | none => .error (NewError "initialization" "" (.plain "DefaultConfigValues must be specified"))
    | some _ => .ok { defaults := d, filePath := "" }

/-- Transcription of `(*ConfigManager).buildPath()`: joins the home
directory, `.config`, the application name and `default.conf`. -/
def ConfigManager.buildPath (cm : ConfigManager) (fs : FS) : Except GoError String :=
  .ok (filepathJoin [osUserHomeDir fs, ".config", cm.defaults.AppName, "default.conf"])

/-- Result of `ensureConfigFile`: the returned error, the file system
after the call, and the calls made. -/
structure EnsureResult where
  err : Option GoError
  fs : FS
  trace : List Event
deriving DecidableEq

/-- Transcription of `(*ConfigManager).ensureConfigFile(path)`: returns nil
as soon as `os.Stat` succeeds; on ANY stat error it creates the parent
directories, marshals the default values and writes them to `path`. -/
def ConfigManager.ensureConfigFile (cm : ConfigManager) (fs : FS) (path : String) :
    EnsureResult :=
  if osStat fs path = none then ⟨none, fs, [.statCall path]⟩
  else
    let dir := filepathDir path
    match osMkdirAll fs dir with
    | .error e => ⟨some (NewError "create config directory" dir e), fs,
        [.statCall path, .mkdirAll dir]⟩
    | .ok _ =>
      match cm.defaults.marshalDefaults with
      | .error e => ⟨some (NewError "marshal default config" path e), fs,
          [.statCall path, .mkdirAll dir, .marshalDefaults]⟩
      | .ok data =>
        match osWriteFile fs path data with
        | .error e => ⟨some (NewError "create default config" path e), fs,
            [.statCall path, .mkdirAll dir, .marshalDefaults, .writeFile path data]⟩
        | .ok fs2 => ⟨none, fs2,
            [.statCall path, .mkdirAll dir, .marshalDefaults, .writeFile path data]⟩

/-- Result of `LoadConfig`: the returned error, the manager after the call
(its `filePath` field may have been updated), the file system after the
call, and the calls made. -/
structure LoadResult where
  err : Option GoError
  cm : ConfigManager
  fs : FS
  trace : List Event

/-- Transcription of `(*ConfigManager).LoadConfig(filePath, target)`. -/
def ConfigManager.LoadConfig (cm : ConfigManager) (fs : FS) (filePath : String)
    (target : Serializer) : LoadResult :=
  if filePath = "" then ⟨some (.plain "no path provided"), cm, fs, []⟩
  else
    let r := cm.ensureConfigFile fs filePath
    match r.err with
    | some e => ⟨some e, cm, r.fs, r.trace⟩
    | none =>
      match osReadFile r.fs filePath with
      | .error e => ⟨some (NewError "read config" filePath e), cm, r.fs,
          r.trace ++ [.readFile filePath]⟩
      | .ok bt =>
        match target.unmarshal bt with
        | some e => ⟨some (NewError "unmarshal config" filePath e), cm, r.fs,
            r.trace ++ [.readFile filePath, .unmarshalTarget bt]⟩
        | none => ⟨none, { cm with filePath := filePath }, r.fs,
            r.trace ++ [.readFile filePath, .unmarshalTarget bt]⟩

/-- Result of `SaveConfig`: the returned error, the file system after the
call, and the calls made. -/
structure SaveResult where
  err : Option GoError
  fs : FS
  trace : List Event

/-- Transcription of `(*ConfigManager).SaveConfig(config)`. -/
def ConfigManager.SaveConfig (cm : ConfigManager) (fs : FS) (config : Serializer) :
    SaveResult :=
  match config.marshal with
  | .error e => ⟨some (NewError "marshal config" "" e), fs, [.marshalArg]⟩
  | .ok bt =>
    match osWriteFile fs cm.filePath bt with
    | .error e => ⟨some (NewError "save config" cm.filePath e), fs,
        [.marshalArg, .writeFile cm.filePath bt]⟩
    | .ok fs2 => ⟨none, fs2, [.marshalArg, .writeFile cm.filePath bt]⟩

/-- Serializer that always marshals to `data` and unmarshals successfully
(the shape of the tests' `MockSerializer{MarshalData: data}`). -/
def mockOk (data : String) : Serializer :=
  { marshal := .ok data, unmarshal := fun _ => none }

/-- Serializer whose unmarshal always fails with a plain error `msg`. -/
def mockBadParse (msg : String) : Serializer :=
  { marshal := .ok "", unmarshal := fun _ => some (.plain msg) }

/-- Serializer whose marshal fails with a plain error `msg`. -/
def mockBadMarshal (msg : String) : Serializer :=
  { marshal := .error (.plain msg), unmarshal := fun _ => none }

/-- Sample defaults mirroring the repository's tests. -/
def sampleDefaults : Defaults :=
  { AppName := "testapp", DefaultConfigValues := some (mockOk "config data") }

/-- Manager freshly built from `sampleDefaults` (no resolved path yet). -/
def sampleCm : ConfigManager := { defaults := sampleDefaults, filePath := "" }

/-- Default configuration path for `sampleDefaults` under home `/home/u`. -/
def samplePath : String := "/home/u/.config/testapp/default.conf"

/-- File system with no files and no failing primitives. -/
def emptyFS : FS := ⟨[], [], [], [], [], "/home/u"⟩

/-- File system already holding a configuration file at `samplePath`. -/
def fsWithConfig : FS := ⟨[(samplePath, "existing config")], [], [], [], [], "/home/u"⟩

example : filepathDir samplePath = "/home/u/.config/testapp" := by decide
example : filepathDir "b.conf" = "." := by decide
example : filepathDir "/b.conf" = "/" := by decide
example : (sampleCm.LoadConfig emptyFS samplePath (mockOk "")).err = none := by decide
example : (sampleCm.LoadConfig emptyFS samplePath (mockOk "")).fs.lookup samplePath
    = some "config data" := by decide
example : (sampleCm.LoadConfig emptyFS samplePath (mockOk "")).trace =
    [.statCall samplePath, .mkdirAll "/home/u/.config/testapp", .marshalDefaults,
     .writeFile samplePath "config data", .readFile samplePath,
     .unmarshalTarget "config data"] := by decide
example : (sampleCm.LoadConfig fsWithConfig samplePath (mockOk "")).trace =
    [.statCall samplePath, .readFile samplePath, .unmarshalTarget "existing config"] := by decide
example : (sampleCm.LoadConfig fsWithConfig samplePath (mockBadParse "parse error")).err =
    some (NewError "unmarshal config" samplePath (.plain "parse error")) := by decide
example : (NewError "unmarshal config" samplePath (.plain "parse error")).message =
    "config error: unmarshal config: parse error" := by decide
example : (NewError "initialization" "" (.plain "AppName must be specified")).message =
    "config error: initialization \"\": AppName must be specified" := by decide

theorem lookup_setFile_self (fs : FS) (p d : String) :
    (fs.setFile p d).lookup p = some d := by
  simp [FS.lookup, FS.setFile, List.find?]

theorem osStat_ne_none_of_lookup_none (fs : FS) (p : String) (h : fs.lookup p = none) :
    osStat fs p ≠ none := by
  unfold osStat
  by_cases hm : p ∈ fs.statErrPaths
  · simp [hm]
  · simp [hm, h]

theorem ensureConfigFile_stat_ok (cm : ConfigManager) (fs : FS) (p : String)
    (h : osStat fs p = none) :
    cm.ensureConfigFile fs p = ⟨none, fs, [.statCall p]⟩ := by
  unfold ConfigManager.ensureConfigFile
  simp [h]

theorem ensureConfigFile_creates (cm : ConfigManager) (fs : FS) (p data : String)
    (hstat : ¬ osStat fs p = none)
    (hdir : filepathDir p ∉ fs.mkdirErrDirs)
    (hmar : cm.defaults.marshalDefaults = .ok data)
    (hp : ¬ p = "")
    (hw : p ∉ fs.writeErrPaths) :
    cm.ensureConfigFile fs p =
      ⟨none, fs.setFile p data,
       [.statCall p, .mkdirAll (filepathDir p), .marshalDefaults, .writeFile p data]⟩ := by
  unfold ConfigManager.ensureConfigFile
  rw [if_neg hstat]
  simp [osMkdirAll, hdir, hmar, osWriteFile, hp, hw]

/-- C2: for every target strategy, `LoadConfig` with the empty path fails
immediately with the plain error "no path provided" (a plain error, not a
`ConfigError`), makes no file-system or serializer call (empty trace) and
leaves the manager — in particular its remembered path — and the file
system unchanged. -/
theorem loadConfig_empty_path_rejected (cm : ConfigManager) (fs : FS) (target : Serializer) :
    cm.LoadConfig fs "" target = ⟨some (.plain "no path provided"), cm, fs, []⟩ := by
  simp [ConfigManager.LoadConfig]

theorem loadConfig_cm_cases (cm : ConfigManager) (fs : FS) (p : String) (t : Serializer) :
    ((cm.LoadConfig fs p t).err = none ∧ (cm.LoadConfig fs p t).cm = { cm with filePath := p })
    ∨ ((cm.LoadConfig fs p t).err ≠ none ∧ (cm.LoadConfig fs p t).cm = cm) := by
  unfold ConfigManager.LoadConfig
  by_cases hp : p = ""
  · simp [hp]
  · simp only [if_neg hp]
    cases h1 : (cm.ensureConfigFile fs p).err with
    | some e => simp
    | none =>
      simp only
      cases h2 : osReadFile (cm.ensureConfigFile fs p).fs p with
      | error e => simp
      | ok bt =>
        simp only
        cases t.unmarshal bt <;> simp

/-- C6: `LoadConfig` records the given path as the manager's current path
exactly when it returns no error (every step succeeded); on any failure at
any step the manager is returned unchanged, so its remembered path keeps
its value from before the call. -/
theorem loadConfig_records_path_iff_success (cm : ConfigManager) (fs : FS) (p : String)
    (t : Serializer) :
    (cm.LoadConfig fs p t).cm =
      if (cm.LoadConfig fs p t).err = none then { cm with filePath := p } else cm := by
  rcases loadConfig_cm_cases cm fs p t with ⟨h1, h2⟩ | ⟨h1, h2⟩
  · rw [if_pos h1]; exact h2
  · rw [if_neg h1]; exact h2

theorem loadConfig_of_ensure_ok (cm : ConfigManager) (fs : FS) (p : String) (t : Serializer)
    (fs2 : FS) (tr : List Event) (bt : String)
    (hp : ¬ p = "")
    (hens : cm.ensureConfigFile fs p = ⟨none, fs2, tr⟩)
    (hread : osReadFile fs2 p = .ok bt) :
    (cm.LoadConfig fs p t).trace = tr ++ [.readFile p, .unmarshalTarget bt] ∧
    (cm.LoadConfig fs p t).fs = fs2 ∧
    (cm.LoadConfig fs p t).err =
      (t.unmarshal bt).map (fun e => NewError "unmarshal config" p e) := by
  unfold ConfigManager.LoadConfig
  rw [if_neg hp, hens]
  simp only [hread]
  cases t.unmarshal bt <;> simp

/-- C4: a load against a path at which no file exists, whose parent
directories can be created and whose defaults marshal and file write
succeed, creates the file with exactly the bytes produced by one
invocation of the default-values strategy's marshal, in the order
create-directories, marshal, write; the target's unmarshal is then invoked
with exactly that file's content. -/
theorem loadConfig_fresh_creates_defaults (cm : ConfigManager) (fs : FS) (p data : String)
    (t : Serializer)
    (hp : ¬ p = "")
    (hmiss : fs.lookup p = none)
    (hdir : filepathDir p ∉ fs.mkdirErrDirs)
    (hmar : cm.defaults.marshalDefaults = .ok data)
    (hw : p ∉ fs.writeErrPaths)
    (hr : p ∉ fs.readErrPaths) :
    (cm.LoadConfig fs p t).trace =
      [.statCall p, .mkdirAll (filepathDir p), .marshalDefaults, .writeFile p data,
       .readFile p, .unmarshalTarget data] ∧
    (cm.LoadConfig fs p t).fs.lookup p = some data := by
  have hstat := osStat_ne_none_of_lookup_none fs p hmiss
  have hens := ensureConfigFile_creates cm fs p data hstat hdir hmar hp hw
  have hre : p ∉ (fs.setFile p data).readErrPaths := by
    simpa [FS.setFile] using hr
  have hread : osReadFile (fs.setFile p data) p = .ok data := by
    simp [osReadFile, hre, lookup_setFile_self]
  obtain ⟨h1, h2, _⟩ := loadConfig_of_ensure_ok cm fs p t (fs.setFile p data) _ data hp hens hread
  exact ⟨by rw [h1]; rfl, by rw [h2]; exact lookup_setFile_self fs p data⟩

/-- C5: a load against a path at which a file already exists (and stat
works) never invokes the default-values strategy's marshal, leaves the
file system unchanged, and invokes the target's unmarshal exactly once
with the file's existing bytes; moreover after any successful
ensure-config-file call a second call on the same path is a no-op (it only
stats, performing no directory creation and no write). -/
theorem loadConfig_existing_no_overwrite (cm : ConfigManager) (fs : FS) (p content : String)
    (t : Serializer)
    (hp : ¬ p = "")
    (hstat : p ∉ fs.statErrPaths)
    (hex : fs.lookup p = some content)
    (hr : p ∉ fs.readErrPaths) :
    (cm.LoadConfig fs p t).trace = [.statCall p, .readFile p, .unmarshalTarget content] ∧
    (cm.LoadConfig fs p t).fs = fs ∧
    (∀ fs2 : FS, (cm.ensureConfigFile fs2 p).err = none → p ∉ fs2.statErrPaths →
      cm.ensureConfigFile (cm.ensureConfigFile fs2 p).fs p =
        ⟨none, (cm.ensureConfigFile fs2 p).fs, [.statCall p]⟩) := by
  have hso : osStat fs p = none := by simp [osStat, hstat, hex]
  have hens := ensureConfigFile_stat_ok cm fs p hso
  have hread : osReadFile fs p = .ok content := by simp [osReadFile, hr, hex]
  obtain ⟨h1, h2, _⟩ := loadConfig_of_ensure_ok cm fs p t fs _ content hp hens hread
  refine ⟨by rw [h1]; rfl, h2, ?_⟩
  intro fs2 he hst2
  by_cases hs : osStat fs2 p = none
  · rw [ensureConfigFile_stat_ok cm fs2 p hs]
    exact ensureConfigFile_stat_ok cm fs2 p hs
  · cases hmk : osMkdirAll fs2 (filepathDir p) with
    | error e =>
        exfalso
        unfold ConfigManager.ensureConfigFile at he
        rw [if_neg hs] at he
        simp [hmk] at he
    | ok u =>
      cases hmar2 : cm.defaults.marshalDefaults with
      | error e =>
          exfalso
          unfold ConfigManager.ensureConfigFile at he
          rw [if_neg hs] at he
          simp [hmk, hmar2] at he
      | ok data =>
        cases hwr : osWriteFile fs2 p data with
        | error e =>
            exfalso
            unfold ConfigManager.ensureConfigFile at he
            rw [if_neg hs] at he
            simp [hmk, hmar2, hwr] at he
        | ok fs3 =>
          have hE : cm.ensureConfigFile fs2 p =
              ⟨none, fs3, [.statCall p, .mkdirAll (filepathDir p), .marshalDefaults,
                .writeFile p data]⟩ := by
            unfold ConfigManager.ensureConfigFile
            rw [if_neg hs]
            simp [hmk, hmar2, hwr]
          rw [hE]
          have hfs3 : fs3 = fs2.setFile p data := by
            unfold osWriteFile at hwr
            split_ifs at hwr
            exact (Except.ok.inj hwr).symm
          subst hfs3
          apply ensureConfigFile_stat_ok
          have hst3 : p ∉ (fs2.setFile p data).statErrPaths := by
            simpa [FS.setFile] using hst2
          simp [osStat, hst3, lookup_setFile_self]

/-- C7: `SaveConfig` first marshals the supplied strategy; on marshal
failure it returns a `ConfigError` with operation "marshal config" and
empty path, the file system unchanged and no write call made; on marshal
success it writes the bytes as the full content of the manager's
remembered path (overwriting any existing content there), and a write
failure yields a `ConfigError` with operation "save config" and that
path, with the file system unchanged. -/
theorem saveConfig_marshal_then_write (cm : ConfigManager) (fs : FS) (c : Serializer) :
    (∀ e, c.marshal = .error e →
      cm.SaveConfig fs c = ⟨some (NewError "marshal config" "" e), fs, [.marshalArg]⟩) ∧
    (∀ bt e, c.marshal = .ok bt → osWriteFile fs cm.filePath bt = .error e →
      cm.SaveConfig fs c = ⟨some (NewError "save config" cm.filePath e), fs,
        [.marshalArg, .writeFile cm.filePath bt]⟩) ∧
    (∀ bt, c.marshal = .ok bt → ¬ cm.filePath = "" → cm.filePath ∉ fs.writeErrPaths →
      (cm.SaveConfig fs c).err = none ∧
      (cm.SaveConfig fs c).fs.lookup cm.filePath = some bt) := by
  refine ⟨?_, ?_, ?_⟩
  · intro e he
    unfold ConfigManager.SaveConfig
    rw [he]
  · intro bt e hm hw
    unfold ConfigManager.SaveConfig
    simp only [hm]
    rw [hw]
  · intro bt hm hp hw
    have hwr : osWriteFile fs cm.filePath bt = .ok (fs.setFile cm.filePath bt) := by
      simp [osWriteFile, hp, hw]
    unfold ConfigManager.SaveConfig
    simp only [hm, hwr]
    exact ⟨trivial, lookup_setFile_self fs cm.filePath bt⟩

/-- C9: `ensureConfigFile` treats any stat failure as absence: when stat
fails at `p` with a permission-style error (membership in `statErrPaths`,
irrespective of whether an entry exists there), the creation path is taken
— the parent directory is created, the default-values strategy is
marshalled and its bytes are written to `p`, replacing whatever content
was there. -/
theorem ensureConfigFile_stat_error_recreates (cm : ConfigManager) (fs : FS) (p data : String)
    (hstat : p ∈ fs.statErrPaths)
    (hdir : filepathDir p ∉ fs.mkdirErrDirs)
    (hmar : cm.defaults.marshalDefaults = .ok data)
    (hp : ¬ p = "")
    (hw : p ∉ fs.writeErrPaths) :
    cm.ensureConfigFile fs p =
      ⟨none, fs.setFile p data,
       [.statCall p, .mkdirAll (filepathDir p), .marshalDefaults, .writeFile p data]⟩ ∧
    (cm.ensureConfigFile fs p).fs.lookup p = some data := by
  have hso : ¬ osStat fs p = none := by simp [osStat, hstat]
  have hE := ensureConfigFile_creates cm fs p data hso hdir hmar hp hw
  exact ⟨hE, by rw [hE]; exact lookup_setFile_self fs p data⟩

/-- C10: a manager fresh from `NewConfigManager` has the empty string as
its remembered path, and calling `SaveConfig` on it with a strategy whose
marshal succeeds reaches the write call with the empty path (no guard
rejects the call earlier) and returns a `ConfigError` with operation
"save config", path `""`, wrapping the I/O failure of opening the empty
path. -/
theorem saveConfig_before_load_empty_path (d : Defaults) (cm : ConfigManager) (fs : FS)
    (c : Serializer) (bt : String)
    (hnew : NewConfigManager d = .ok cm)
    (hm : c.marshal = .ok bt) :
    cm.filePath = "" ∧
    cm.SaveConfig fs c =
      ⟨some (NewError "save config" "" (.plain "open : no such file or directory")), fs,
       [.marshalArg, .writeFile "" bt]⟩ := by
  have hcm : cm = { defaults := d, filePath := "" } := by
    unfold NewConfigManager at hnew
    by_cases ha : d.AppName = ""
    · rw [if_pos ha] at hnew
      exact Except.noConfusion hnew
    · rw [if_neg ha] at hnew
      cases hd : d.DefaultConfigValues with
      | none => rw [hd] at hnew; exact Except.noConfusion hnew
      | some s => rw [hd] at hnew; exact (Except.ok.inj hnew).symm
  subst hcm
  refine ⟨rfl, ?_⟩
  unfold ConfigManager.SaveConfig
  simp [hm, osWriteFile]

/-- C1 fails on the code: when the target's unmarshal fails, the error
value does carry operation "unmarshal config" and the file path, but the
inverted branch of `ConfigError.Error()` renders the message WITHOUT the
quoted path, so the rendered string is
`config error: unmarshal config: parse error` and not the claimed
`config error: unmarshal config "<path>": parse error` (which is also the
string the repository's own test `TestLoadConfig_InvalidConfig` expects). -/
theorem loadConfig_unmarshal_error_message_drops_path :
    (sampleCm.LoadConfig fsWithConfig samplePath (mockBadParse "parse error")).err =
      some (NewError "unmarshal config" samplePath (.plain "parse error")) ∧
    (NewError "unmarshal config" samplePath (.plain "parse error")).message =
      "config error: unmarshal config: parse error" ∧
    ¬ (NewError "unmarshal config" samplePath (.plain "parse error")).message =
      "config error: unmarshal config \"/home/u/.config/testapp/default.conf\": parse error" := by
  exact ⟨by decide, by decide, by decide⟩

/-- C3 fails on the code: both constructor validation failures return a
`ConfigError` (operation "initialization", empty path, descriptive cause)
and no manager, but its rendered message is
`config error: initialization "": <cause>` rather than the bare
"AppName must be specified" / "DefaultConfigValues must be specified" the
claim (and the repository's own test `TestNewConfigManager_Validation`)
expects. -/
theorem newConfigManager_validation_wrapped :
    NewConfigManager { AppName := "", DefaultConfigValues := some (mockOk "x") } =
      .error (NewError "initialization" "" (.plain "AppName must be specified")) ∧
    NewConfigManager { AppName := "testapp", DefaultConfigValues := none } =
      .error (NewError "initialization" "" (.plain "DefaultConfigValues must be specified")) ∧
    (NewError "initialization" "" (.plain "AppName must be specified")).message =
      "config error: initialization \"\": AppName must be specified" ∧
    ¬ (NewError "initialization" "" (.plain "AppName must be specified")).message =
      "AppName must be specified" ∧
    ¬ (NewError "initialization" "" (.plain "DefaultConfigValues must be specified")).message =
      "DefaultConfigValues must be specified" := by
  exact ⟨rfl, rfl, by decide, by decide, by decide⟩

theorem osStat_home_irrelevant (fs : FS) (h p : String) :
    osStat { fs with home := h } p = osStat fs p := rfl

theorem osMkdirAll_home_irrelevant (fs : FS) (h d : String) :
    osMkdirAll { fs with home := h } d = osMkdirAll fs d := rfl

theorem osReadFile_home_irrelevant (fs : FS) (h p : String) :
    osReadFile { fs with home := h } p = osReadFile fs p := rfl

theorem osWriteFile_home_irrelevant (fs : FS) (h p data : String) :
    osWriteFile { fs with home := h } p data =
      (osWriteFile fs p data).map (fun g => { g with home := h }) := by
  unfold osWriteFile
  by_cases h1 : p = ""
  · simp [h1, Except.map]
  · by_cases h2 : p ∈ fs.writeErrPaths
    · simp [h1, h2, Except.map]
    · simp [h1, h2, FS.setFile, Except.map]

theorem ensureConfigFile_home_irrelevant (cm : ConfigManager) (fs : FS) (h p : String) :
    cm.ensureConfigFile { fs with home := h } p =
      ⟨(cm.ensureConfigFile fs p).err,
       { (cm.ensureConfigFile fs p).fs with home := h },
       (cm.ensureConfigFile fs p).trace⟩ := by
  unfold ConfigManager.ensureConfigFile
  simp only [osStat_home_irrelevant, osMkdirAll_home_irrelevant, osWriteFile_home_irrelevant]
  by_cases hs : osStat fs p = none
  · simp [hs]
  · simp only [if_neg hs]
    cases hmk : osMkdirAll fs (filepathDir p) with
    | error e => simp [hmk]
    | ok u =>
      simp only [hmk]
      cases hmar : cm.defaults.marshalDefaults with
      | error e => simp [hmar]
      | ok data =>
        simp only [hmar]
        cases hwr : osWriteFile fs p data with
        | error e => simp [hwr, Except.map]
        | ok fs3 => simp [hwr, Except.map]

theorem loadConfig_home_irrelevant (cm : ConfigManager) (fs : FS) (h p : String)
    (t : Serializer) :
    cm.LoadConfig { fs with home := h } p t =
      ⟨(cm.LoadConfig fs p t).err, (cm.LoadConfig fs p t).cm,
       { (cm.LoadConfig fs p t).fs with home := h }, (cm.LoadConfig fs p t).trace⟩ := by
  unfold ConfigManager.LoadConfig
  by_cases hp : p = ""
  · simp [hp]
  · simp only [if_neg hp, ensureConfigFile_home_irrelevant, osReadFile_home_irrelevant]
    cases he : (cm.ensureConfigFile fs p).err with
    | some e => simp
    | none =>
      simp only
      cases hrd : osReadFile (cm.ensureConfigFile fs p).fs p with
      | error e => simp
      | ok bt =>
        simp only
        cases t.unmarshal bt <;> simp

theorem saveConfig_home_irrelevant (cm : ConfigManager) (fs : FS) (h : String)
    (c : Serializer) :
    cm.SaveConfig { fs with home := h } c =
      ⟨(cm.SaveConfig fs c).err, { (cm.SaveConfig fs c).fs with home := h },
       (cm.SaveConfig fs c).trace⟩ := by
  unfold ConfigManager.SaveConfig
  simp only [osWriteFile_home_irrelevant]
  cases hm : c.marshal with
  | error e => simp
  | ok bt =>
    simp only
    cases hw : osWriteFile fs cm.filePath bt with
    | error e => simp [hw, Except.map]
    | ok fs2 => simp [hw, Except.map]

/-- C8: no public operation consults the home directory. `NewConfigManager`
takes no file-system state at all, and for any two values of the home
directory, `LoadConfig` and `SaveConfig` return the same error, the same
manager, the same call trace and the same files; `buildPath`, the only
definition reading the home directory (shown in the last conjunct to
depend on it), is never invoked by them. -/
theorem public_api_home_noninterference (cm : ConfigManager) (fs : FS) (h1 h2 p : String)
    (t c : Serializer) :
    ((cm.LoadConfig { fs with home := h1 } p t).err =
       (cm.LoadConfig { fs with home := h2 } p t).err ∧
     (cm.LoadConfig { fs with home := h1 } p t).cm =
       (cm.LoadConfig { fs with home := h2 } p t).cm ∧
     (cm.LoadConfig { fs with home := h1 } p t).trace =
       (cm.LoadConfig { fs with home := h2 } p t).trace ∧
     (cm.LoadConfig { fs with home := h1 } p t).fs.files =
       (cm.LoadConfig { fs with home := h2 } p t).fs.files) ∧
    ((cm.SaveConfig { fs with home := h1 } c).err =
       (cm.SaveConfig { fs with home := h2 } c).err ∧
     (cm.SaveConfig { fs with home := h1 } c).trace =
       (cm.SaveConfig { fs with home := h2 } c).trace ∧
     (cm.SaveConfig { fs with home := h1 } c).fs.files =
       (cm.SaveConfig { fs with home := h2 } c).fs.files) ∧
    cm.buildPath { fs with home := h1 } =
      .ok (filepathJoin [h1, ".config", cm.defaults.AppName, "default.conf"]) := by
  simp [loadConfig_home_irrelevant, saveConfig_home_irrelevant, ConfigManager.buildPath,
    osUserHomeDir]

/-- Manager that has successfully loaded from `samplePath`. -/
def loadedCm : ConfigManager := { defaults := sampleDefaults, filePath := samplePath }

/-- File system where writing to `samplePath` fails. -/
def roFS : FS := ⟨[(samplePath, "existing config")], [], [], [samplePath], [], "/home/u"⟩

/-- File system where stat fails at `samplePath` although a file with
different content exists there. -/
def statBrokenFS : FS := ⟨[(samplePath, "old content")], [samplePath], [], [], [], "/home/u"⟩

/-- Witness for C4 at a concrete fresh load: the default bytes
"config data" are written to `samplePath` and then unmarshalled. -/
theorem loadConfig_fresh_creates_defaults_witness :
    (sampleCm.LoadConfig emptyFS samplePath (mockOk "")).trace =
      [.statCall samplePath, .mkdirAll (filepathDir samplePath), .marshalDefaults,
       .writeFile samplePath "config data", .readFile samplePath,
       .unmarshalTarget "config data"] ∧
    (sampleCm.LoadConfig emptyFS samplePath (mockOk "")).fs.lookup samplePath =
      some "config data" :=
  loadConfig_fresh_creates_defaults sampleCm emptyFS samplePath "config data" (mockOk "")
    (by decide) (by decide) (by decide) rfl (by decide) (by decide)

/-- Witness for C5 at a concrete load against an existing file, and for
the no-op second ensure-config-file call after a first call that created
the file in the empty file system. -/
theorem loadConfig_existing_no_overwrite_witness :
    (sampleCm.LoadConfig fsWithConfig samplePath (mockOk "")).trace =
      [.statCall samplePath, .readFile samplePath, .unmarshalTarget "existing config"] ∧
    (sampleCm.LoadConfig fsWithConfig samplePath (mockOk "")).fs = fsWithConfig ∧
    sampleCm.ensureConfigFile (sampleCm.ensureConfigFile emptyFS samplePath).fs samplePath =
      ⟨none, (sampleCm.ensureConfigFile emptyFS samplePath).fs, [.statCall samplePath]⟩ := by
  obtain ⟨h1, h2, h3⟩ := loadConfig_existing_no_overwrite sampleCm fsWithConfig samplePath
    "existing config" (mockOk "") (by decide) (by decide) (by decide) (by decide)
  exact ⟨h1, h2, h3 emptyFS (by decide) (by decide)⟩

/-- Witness for C7: a failing marshal leaves the file system untouched and
makes no write call; a successful marshal overwrites the remembered path's
content; a failing write yields the "save config" error at that path. -/
theorem saveConfig_marshal_then_write_witness :
    loadedCm.SaveConfig fsWithConfig (mockBadMarshal "boom") =
      ⟨some (NewError "marshal config" "" (.plain "boom")), fsWithConfig, [.marshalArg]⟩ ∧
    (loadedCm.SaveConfig fsWithConfig (mockOk "new content")).err = none ∧
    (loadedCm.SaveConfig fsWithConfig (mockOk "new content")).fs.lookup samplePath =
      some "new content" ∧
    loadedCm.SaveConfig roFS (mockOk "x") =
      ⟨some (NewError "save config" samplePath
         (.plain ("open " ++ samplePath ++ ": permission denied"))), roFS,
       [.marshalArg, .writeFile samplePath "x"]⟩ := by
  obtain ⟨hA, _, _⟩ := saveConfig_marshal_then_write loadedCm fsWithConfig (mockBadMarshal "boom")
  obtain ⟨_, _, hC⟩ := saveConfig_marshal_then_write loadedCm fsWithConfig (mockOk "new content")
  obtain ⟨_, hB, _⟩ := saveConfig_marshal_then_write loadedCm roFS (mockOk "x")
  obtain ⟨h1, h2⟩ := hC "new content" rfl (by decide) (by decide)
  refine ⟨hA (.plain "boom") rfl, h1, h2, ?_⟩
  exact hB "x" (.plain ("open " ++ samplePath ++ ": permission denied")) rfl rfl

/-- Witness for C9: with stat broken at `samplePath`, the existing
"old content" there is replaced by the marshalled defaults "config data". -/
theorem ensureConfigFile_stat_error_recreates_witness :
    statBrokenFS.lookup samplePath = some "old content" ∧
    (sampleCm.ensureConfigFile statBrokenFS samplePath).fs.lookup samplePath =
      some "config data" ∧
    (sampleCm.ensureConfigFile statBrokenFS samplePath).trace =
      [.statCall samplePath, .mkdirAll (filepathDir samplePath), .marshalDefaults,
       .writeFile samplePath "config data"] := by
  obtain ⟨h1, h2⟩ := ensureConfigFile_stat_error_recreates sampleCm statBrokenFS samplePath
    "config data" (by decide) (by decide) rfl (by decide) (by decide)
  exact ⟨by decide, h2, by rw [h1]⟩

/-- Witness for C10: saving through a freshly constructed manager fails
with operation "save config" and the empty path. -/
theorem saveConfig_before_load_empty_path_witness :
    sampleCm.filePath = "" ∧
    sampleCm.SaveConfig emptyFS (mockOk "config data") =
      ⟨some (NewError "save config" "" (.plain "open : no such file or directory")), emptyFS,
       [.marshalArg, .writeFile "" "config data"]⟩ :=
  saveConfig_before_load_empty_path sampleDefaults sampleCm emptyFS (mockOk "config data")
    "config data" rfl rfl
